import Mathlib

/-
Verification of the resource-handle contract of cuML's `raftHandle_impl`
(src/cpp/src/common/raftHandle_impl.hpp). The header in the repository is
declaration-only: it declares the accessors and mutators of the per-session
GPU execution context (`getDevice`, `setStream`/`getStream`, the four math
library handle getters, the internal stream pool accessors, allocator and
communicator slots, `getDeviceProperties`, `getRaftHandle`) together with
the private members `_deviceAllocator`, `_hostAllocator`, `_communicator`
and `_raftHandle`, but the member-function bodies live in a translation
unit that is not part of the given sources. The behaviour is therefore
modelled from the specification (spec.md sections 3-7), faithful to its
words: opaque runtime identities (streams, allocators, communicators,
vendor handles, device-property snapshots) are modelled as natural-number
identities, and the context is a record of the state the spec ascribes to
it, with the delegated raft::handle_t state flattened into the record and
the backing raft object kept as the identity `_raftHandle`.
-/

namespace ML

/-- Modelled from the spec: an opaque execution-stream identity
(cudaStream_t). The default (implicit) stream is identity 0. -/
abbrev CudaStream := Nat

/-- Modelled from the spec: an opaque allocator-instance identity (the
object a std::shared_ptr of deviceAllocator or hostAllocator points to);
identity equality models "the same instance, not a copy". -/
abbrev AllocatorRef := Nat

/-- Modelled from the spec: an opaque communicator-instance identity (the
object a std::shared_ptr of MLCommon::cumlCommunicator points to). -/
abbrev CommRef := Nat

/-- Modelled from the spec: the immutable device-property snapshot
(cudaDeviceProp) queried once at construction, as an opaque identity. -/
abbrev DeviceProp := Nat

/-- Modelled from the spec: a vendor math-library handle (cublas,
cusolverDn, cusolverSp, cusparse) carries its own identity and the stream
it is currently bound to; section 4.3 requires the bound stream to track
the primary stream. -/
structure MathHandle where
  id : Nat
  boundStream : CudaStream
deriving DecidableEq

/-- Modelled from the spec, section 7: the recoverable per-call error
kinds IndexOutOfBounds (invalid auxiliary-stream index) and NotInitialized
(communicator accessed before being set). -/
inductive ErrorKind where
  | IndexOutOfBounds
  | NotInitialized
deriving DecidableEq

/-- Modelled from the spec, section 7: the fatal construction failures —
device not found, stream creation failure, library-handle creation
failure. -/
inductive ConstructionError where
  | DeviceError
  | StreamCreationFailure
  | HandleCreationFailure
deriving DecidableEq

/-- Modelled from the spec, section 6: the vendor-runtime calls the
constructor issues, recorded as a trace so that single-query caching
(section 4.1: properties "queried exactly once") is statable. -/
inductive ApiCall where
  | setDevice
  | queryProps
  | createStream
  | createCublas
  | createCusolverDn
  | createCusolverSp
  | createCusparse
deriving DecidableEq

/-- Modelled from the spec: the vendor-runtime environment construction
runs against — whether the device can be bound and whether stream and
library-handle creation succeed (section 7's construction failures), the
bound device ordinal, its property snapshot, and the identity of the
raft::handle_t object the constructor allocates. -/
structure Env where
  deviceOk : Bool
  streamOk : Bool
  handleOk : Bool
  device : Int
  props : DeviceProp
  raftObj : Nat
deriving DecidableEq

/-- Modelled from the spec, section 3: the ResourceContext state of
`ML::raftHandle_impl` — device ordinal, cached property snapshot, primary
stream, the owned auxiliary stream pool in creation order, the four
vendor handles, the shared-ownership slots `_deviceAllocator`,
`_hostAllocator`, `_communicator` (a shared_ptr that may be unset is an
Option), and `_raftHandle`, the identity of the owned backing
raft::handle_t. -/
structure raftHandle_impl where
  device : Int
  props : DeviceProp
  primaryStream : CudaStream
  internalStreams : List CudaStream
  cublas : MathHandle
  cusolverDn : MathHandle
  cusolverSp : MathHandle
  cusparse : MathHandle
  _deviceAllocator : Option AllocatorRef
  _hostAllocator : Option AllocatorRef
  _communicator : Option CommRef
  _raftHandle : Nat
deriving DecidableEq

/-- Modelled from the spec: the identity of the i-th auxiliary stream
created at construction; identities are offset by one so none collides
with the default primary stream 0, and distinct indices give distinct
streams. -/
def internalStreamId (i : Nat) : CudaStream := i + 1

/-- Modelled from the spec, section 4.4: the caller-independent fallback
device allocator installed at construction when none is injected. -/
def defaultDeviceAllocator : AllocatorRef := 0

/-- Modelled from the spec, section 4.4: the caller-independent fallback
host allocator installed at construction when none is injected. -/
def defaultHostAllocator : AllocatorRef := 1

/-- Modelled from the spec: the identity of each eagerly created vendor
handle (creation policy is eager; the spec allows either eager or lazy). -/
def cublasId : Nat := 10

/-- Modelled from the spec: identity of the cusolverDn handle. -/
def cusolverDnId : Nat := 11

/-- Modelled from the spec: identity of the cusolverSp handle. -/
def cusolverSpId : Nat := 12

/-- Modelled from the spec: identity of the cusparse handle. -/
def cusparseId : Nat := 13

/-- Modelled from the spec, sections 3 and 4.6: the successfully
constructed context — device bound, properties cached, primary stream
defaulted to the implicit stream, n_streams distinct auxiliary streams in
creation order, the four handles created and bound to the primary stream,
valid default allocators in both slots, the communicator slot left unset,
and the freshly allocated backing raft handle. -/
def buildHandle (env : Env) (n_streams : Nat) : raftHandle_impl :=
  { device := env.device
    props := env.props
    primaryStream := 0
    internalStreams := (List.range n_streams).map internalStreamId
    cublas := { id := cublasId, boundStream := 0 }
    cusolverDn := { id := cusolverDnId, boundStream := 0 }
    cusolverSp := { id := cusolverSpId, boundStream := 0 }
    cusparse := { id := cusparseId, boundStream := 0 }
    _deviceAllocator := some defaultDeviceAllocator
    _hostAllocator := some defaultHostAllocator
    _communicator := none
    _raftHandle := env.raftObj }

/-- Modelled from the spec, section 4.6: the vendor calls construction
issues, in construction order — bind device, query properties once,
create the n auxiliary streams, create the four library handles. -/
def buildTrace (n_streams : Nat) : List ApiCall :=
  ApiCall.setDevice :: ApiCall.queryProps ::
    (List.replicate n_streams ApiCall.createStream ++
      [ApiCall.createCublas, ApiCall.createCusolverDn,
       ApiCall.createCusolverSp, ApiCall.createCusparse])

/-- Modelled from the spec, section 7: `raftHandle_impl::raftHandle_impl`.
Construction aborts entirely with the matching ConstructionError when the
device cannot be bound or stream or handle creation fails; only when every
step succeeds is a (fully constructed) context returned, together with the
trace of vendor calls it issued. -/
def constructHandle (env : Env) (n_streams : Nat) :
    Except ConstructionError (raftHandle_impl × List ApiCall) :=
  if env.deviceOk = false then Except.error ConstructionError.DeviceError
  else if env.streamOk = false then Except.error ConstructionError.StreamCreationFailure
  else if env.handleOk = false then Except.error ConstructionError.HandleCreationFailure
  else Except.ok (buildHandle env n_streams, buildTrace n_streams)

/-- Modelled from the spec, section 4.1: `getDevice` returns the device
ordinal bound at construction. -/
def raftHandle_impl.getDevice (h : raftHandle_impl) : Int := h.device

/-- Modelled from the spec, section 4.1: `getDeviceProperties` returns
the cached property snapshot, with no side effect. -/
def raftHandle_impl.getDeviceProperties (h : raftHandle_impl) : DeviceProp := h.props

/-- Modelled from the spec, sections 4.2 and 4.3: `setStream` replaces
the primary stream and re-binds every already-created library handle to
the new stream; the auxiliary pool is not recreated. -/
def raftHandle_impl.setStream (h : raftHandle_impl) (s : CudaStream) : raftHandle_impl :=
  { h with
    primaryStream := s
    cublas := { h.cublas with boundStream := s }
    cusolverDn := { h.cusolverDn with boundStream := s }
    cusolverSp := { h.cusolverSp with boundStream := s }
    cusparse := { h.cusparse with boundStream := s } }

/-- Modelled from the spec, section 4.2: `getStream` returns the current
primary (user) stream. -/
def raftHandle_impl.getStream (h : raftHandle_impl) : CudaStream := h.primaryStream

/-- Modelled from the spec, section 4.3: `getCublasHandle` returns the
cublas handle, bound to the current primary stream. -/
def raftHandle_impl.getCublasHandle (h : raftHandle_impl) : MathHandle := h.cublas

/-- Modelled from the spec, section 4.3: `getcusolverDnHandle` returns
the cusolverDn handle, bound to the current primary stream. -/
def raftHandle_impl.getcusolverDnHandle (h : raftHandle_impl) : MathHandle := h.cusolverDn

/-- Modelled from the spec, section 4.3: `getcusolverSpHandle` returns
the cusolverSp handle, bound to the current primary stream. -/
def raftHandle_impl.getcusolverSpHandle (h : raftHandle_impl) : MathHandle := h.cusolverSp

/-- Modelled from the spec, section 4.3: `getcusparseHandle` returns the
cusparse handle, bound to the current primary stream. -/
def raftHandle_impl.getcusparseHandle (h : raftHandle_impl) : MathHandle := h.cusparse

/-- Modelled from the spec, section 4.2: `getNumInternalStreams` returns
the pool size N fixed at construction. -/
def raftHandle_impl.getNumInternalStreams (h : raftHandle_impl) : Nat :=
  h.internalStreams.length

/-- Modelled from the spec, section 4.2: `getInternalStream(i)` returns
the i-th auxiliary stream for 0 <= i < N and fails with IndexOutOfBounds
otherwise (the index is a C++ int, so negative values are representable). -/
def raftHandle_impl.getInternalStream (h : raftHandle_impl) (sid : Int) :
    Except ErrorKind CudaStream :=
  if 0 ≤ sid ∧ sid < (h.internalStreams.length : Int) then
    Except.ok (h.internalStreams.getD sid.toNat 0)
  else
    Except.error ErrorKind.IndexOutOfBounds

/-- Modelled from the spec, section 4.2: `getInternalStreams` returns the
full ordered pool, order stable across calls (creation order). -/
def raftHandle_impl.getInternalStreams (h : raftHandle_impl) : List CudaStream :=
  h.internalStreams

/-- Modelled from the spec, section 4.4: `setDeviceAllocator` replaces
the held shared reference in the device slot, with no other side effect. -/
def raftHandle_impl.setDeviceAllocator (h : raftHandle_impl) (a : AllocatorRef) :
    raftHandle_impl :=
  { h with _deviceAllocator := some a }

/-- Modelled from the spec, section 4.4: `getDeviceAllocator` returns the
held device-allocator reference (the shared_ptr's target, none if unset). -/
def raftHandle_impl.getDeviceAllocator (h : raftHandle_impl) : Option AllocatorRef :=
  h._deviceAllocator

/-- Modelled from the spec, section 4.4: `setHostAllocator` replaces the
held shared reference in the host slot, with no other side effect. -/
def raftHandle_impl.setHostAllocator (h : raftHandle_impl) (a : AllocatorRef) :
    raftHandle_impl :=
  { h with _hostAllocator := some a }

/-- Modelled from the spec, section 4.4: `getHostAllocator` returns the
held host-allocator reference (the shared_ptr's target, none if unset). -/
def raftHandle_impl.getHostAllocator (h : raftHandle_impl) : Option AllocatorRef :=
  h._hostAllocator

/-- Modelled from the spec, section 4.5: `setCommunicator` installs the
injected communicator instance in the slot. -/
def raftHandle_impl.setCommunicator (h : raftHandle_impl) (c : CommRef) :
    raftHandle_impl :=
  { h with _communicator := some c }

/-- Modelled from the spec, section 4.5: `getCommunicator` returns the
installed instance and fails with NotInitialized when queried before one
is set. -/
def raftHandle_impl.getCommunicator (h : raftHandle_impl) : Except ErrorKind CommRef :=
  match h._communicator with
  | some c => Except.ok c
  | none => Except.error ErrorKind.NotInitialized

/-- Modelled from the spec, section 4.5: `commsInitialized` is a
non-failing boolean probe for whether a communicator is installed (a
total function: it always returns and never throws). -/
def raftHandle_impl.commsInitialized (h : raftHandle_impl) : Bool :=
  h._communicator.isSome

/-- Modelled from the spec: `getRaftHandle` returns a reference to the
one backing raft::handle_t object `_raftHandle`, allocated at
construction and owned until teardown. -/
def raftHandle_impl.getRaftHandle (h : raftHandle_impl) : Nat := h._raftHandle

/-- Modelled from the spec: `getInternalStream` is a const member — the
call's effect on the context is recorded explicitly as the pair of its
result and the (unchanged) context state. -/
def raftHandle_impl.observeInternalStream (h : raftHandle_impl) (sid : Int) :
    Except ErrorKind CudaStream × raftHandle_impl :=
  (h.getInternalStream sid, h)

/-- Modelled from the spec: `getCommunicator` is a const member — the
call's effect on the context is recorded explicitly as the pair of its
result and the (unchanged) context state. -/
def raftHandle_impl.observeCommunicator (h : raftHandle_impl) :
    Except ErrorKind CommRef × raftHandle_impl :=
  (h.getCommunicator, h)

/-- Modelled from the spec, section 5: the mutating operations a caller
may apply to a constructed context between algorithm calls. -/
inductive Op where
  | setStream (s : CudaStream)
  | setDeviceAllocator (a : AllocatorRef)
  | setHostAllocator (a : AllocatorRef)
  | setCommunicator (c : CommRef)
deriving DecidableEq

/-- Modelled from the spec: whether an operation is a `setStream` call. -/
def Op.isSetStream : Op → Bool
  | Op.setStream _ => true
  | _ => false

/-- Modelled from the spec: applying one mutating operation to the
context state. -/
def raftHandle_impl.step (h : raftHandle_impl) : Op → raftHandle_impl
  | Op.setStream s => h.setStream s
  | Op.setDeviceAllocator a => h.setDeviceAllocator a
  | Op.setHostAllocator a => h.setHostAllocator a
  | Op.setCommunicator c => h.setCommunicator c

/-- Modelled from the spec: a session applies a sequence of mutating
operations to the context, in order. -/
def raftHandle_impl.applyOps (h : raftHandle_impl) (ops : List Op) : raftHandle_impl :=
  ops.foldl raftHandle_impl.step h

/-- A concrete healthy runtime environment, used to instantiate proved
theorems at concrete inputs. -/
def goodEnv : Env :=
  { deviceOk := true, streamOk := true, handleOk := true,
    device := 0, props := 7, raftObj := 42 }

/-- Inversion of successful construction: an ok result is exactly the
fully built context together with its construction trace. -/
theorem constructHandle_ok (env : Env) (n : Nat) (h : raftHandle_impl)
    (tr : List ApiCall) (hc : constructHandle env n = Except.ok (h, tr)) :
    h = buildHandle env n ∧ tr = buildTrace n := by
  unfold constructHandle at hc
  by_cases h1 : env.deviceOk = false
  · rw [if_pos h1] at hc; cases hc
  · rw [if_neg h1] at hc
    by_cases h2 : env.streamOk = false
    · rw [if_pos h2] at hc; cases hc
    · rw [if_neg h2] at hc
      by_cases h3 : env.handleOk = false
      · rw [if_pos h3] at hc; cases hc
      · rw [if_neg h3] at hc
        rw [Except.ok.injEq, Prod.mk.injEq] at hc
        exact ⟨hc.1.symm, hc.2.symm⟩

/-- Unfolding one operation of a session. -/
theorem applyOps_cons (h : raftHandle_impl) (op : Op) (ops : List Op) :
    h.applyOps (op :: ops) = (h.step op).applyOps ops := rfl

/-- No mutating operation touches the device ordinal, the cached property
snapshot, the backing raft handle, or the auxiliary stream pool. -/
theorem applyOps_fixed (ops : List Op) (h : raftHandle_impl) :
    (h.applyOps ops).device = h.device ∧
    (h.applyOps ops).props = h.props ∧
    (h.applyOps ops)._raftHandle = h._raftHandle ∧
    (h.applyOps ops).internalStreams = h.internalStreams := by
  induction ops generalizing h with
  | nil => exact ⟨rfl, rfl, rfl, rfl⟩
  | cons op rest ih =>
    rw [applyOps_cons]
    cases op with
    | setStream s => exact ih _
    | setDeviceAllocator a => exact ih _
    | setHostAllocator a => exact ih _
    | setCommunicator c => exact ih _

/-- A session that contains no setStream call leaves the primary stream
and every library handle (identity and bound stream) unchanged. -/
theorem applyOps_no_setStream (ops : List Op)
    (hops : ops.all (fun o => !o.isSetStream) = true) (h : raftHandle_impl) :
    (h.applyOps ops).primaryStream = h.primaryStream ∧
    (h.applyOps ops).cublas = h.cublas ∧
    (h.applyOps ops).cusolverDn = h.cusolverDn ∧
    (h.applyOps ops).cusolverSp = h.cusolverSp ∧
    (h.applyOps ops).cusparse = h.cusparse := by
  induction ops generalizing h with
  | nil => exact ⟨rfl, rfl, rfl, rfl, rfl⟩
  | cons op rest ih =>
    rw [List.all_cons, Bool.and_eq_true] at hops
    rw [applyOps_cons]
    cases op with
    | setStream s => simp [Op.isSetStream] at hops
    | setDeviceAllocator a => exact ih hops.2 _
    | setHostAllocator a => exact ih hops.2 _
    | setCommunicator c => exact ih hops.2 _

/-- Once both allocator slots hold a value, no mutating operation can
empty either of them. -/
theorem applyOps_alloc (ops : List Op) (h : raftHandle_impl)
    (hd : h._deviceAllocator.isSome = true)
    (hh : h._hostAllocator.isSome = true) :
    (h.applyOps ops)._deviceAllocator.isSome = true ∧
    (h.applyOps ops)._hostAllocator.isSome = true := by
  induction ops generalizing h with
  | nil => exact ⟨hd, hh⟩
  | cons op rest ih =>
    rw [applyOps_cons]
    cases op with
    | setStream s => exact ih _ hd hh
    | setDeviceAllocator a => exact ih _ rfl hh
    | setHostAllocator a => exact ih _ hd rfl
    | setCommunicator c => exact ih _ hd hh

/-- The pool identities created at construction are pairwise distinct. -/
theorem pool_nodup (n : Nat) : ((List.range n).map internalStreamId).Nodup :=
  List.Nodup.map
    (fun a b hab => by simpa [internalStreamId] using hab)
    (List.nodup_range n)

/-- C1: for every context and every stream s, after setStream(s) changes
the primary stream, any subsequent access to a math-library handle
(getCublasHandle, getcusolverDnHandle, getcusolverSpHandle,
getcusparseHandle) — here: after any further session operations that do
not change the stream again — observes that handle bound to s, never to
the previous primary stream. -/
theorem C1_setStream_rebinds_all_handles (h : raftHandle_impl)
    (s : CudaStream) (ops : List Op)
    (hops : ops.all (fun o => !o.isSetStream) = true) :
    ((h.setStream s).applyOps ops).getCublasHandle.boundStream = s ∧
    ((h.setStream s).applyOps ops).getcusolverDnHandle.boundStream = s ∧
    ((h.setStream s).applyOps ops).getcusolverSpHandle.boundStream = s ∧
    ((h.setStream s).applyOps ops).getcusparseHandle.boundStream = s ∧
    ∀ prev : CudaStream, prev ≠ s →
      ((h.setStream s).applyOps ops).getCublasHandle.boundStream ≠ prev := by
  obtain ⟨hp, hcb, hdn, hsp, hcs⟩ := applyOps_no_setStream ops hops (h.setStream s)
  refine ⟨?_, ?_, ?_, ?_, ?_⟩
  · show ((h.setStream s).applyOps ops).cublas.boundStream = s
    rw [hcb]; rfl
  · show ((h.setStream s).applyOps ops).cusolverDn.boundStream = s
    rw [hdn]; rfl
  · show ((h.setStream s).applyOps ops).cusolverSp.boundStream = s
    rw [hsp]; rfl
  · show ((h.setStream s).applyOps ops).cusparse.boundStream = s
    rw [hcs]; rfl
  · intro prev hprev
    show ((h.setStream s).applyOps ops).cublas.boundStream ≠ prev
    rw [hcb]
    exact fun hcon => hprev hcon.symm

/-- Witness for C1 at a concrete context, stream 9 and a session of two
non-setStream operations. -/
theorem C1_setStream_rebinds_all_handles_witness :
    (((buildHandle goodEnv 2).setStream 9).applyOps
      [Op.setDeviceAllocator 5, Op.setCommunicator 3]).getCublasHandle.boundStream = 9 :=
  (C1_setStream_rebinds_all_handles (buildHandle goodEnv 2) 9
    [Op.setDeviceAllocator 5, Op.setCommunicator 3] (by decide)).1

/-- C2: for every N supplied to the constructor, immediately after
construction getNumInternalStreams() returns N, and getInternalStreams()
returns a sequence of exactly N pairwise-distinct stream identities in
creation order; the getter is a pure function of the context state, so it
returns the same sequence on every call. -/
theorem C2_pool_after_construction (env : Env) (n : Nat)
    (h : raftHandle_impl) (tr : List ApiCall)
    (hc : constructHandle env n = Except.ok (h, tr)) :
    h.getNumInternalStreams = n ∧
    h.getInternalStreams.length = n ∧
    h.getInternalStreams.Nodup ∧
    h.getInternalStreams = (List.range n).map internalStreamId := by
  obtain ⟨hb, -⟩ := constructHandle_ok env n h tr hc
  subst hb
  refine ⟨?_, ?_, pool_nodup n, rfl⟩
  · show ((List.range n).map internalStreamId).length = n
    rw [List.length_map, List.length_range]
  · show ((List.range n).map internalStreamId).length = n
    rw [List.length_map, List.length_range]

/-- Witness for C2 at N = 4. -/
theorem C2_pool_after_construction_witness :
    (buildHandle goodEnv 4).getNumInternalStreams = 4 :=
  (C2_pool_after_construction goodEnv 4 (buildHandle goodEnv 4)
    (buildTrace 4) rfl).1

/-- C3: for every context with N auxiliary streams and every integer i,
if 0 <= i < N then getInternalStream(i) succeeds (and, being a pure
function of the unchanged context, returns the same identity on every
repeated call), and it fails precisely on out-of-range i, always with
IndexOutOfBounds. -/
theorem C3_getInternalStream_bounds (h : raftHandle_impl) (i : Int) :
    (0 ≤ i ∧ i < (h.getNumInternalStreams : Int) →
      ∃ s, h.getInternalStream i = Except.ok s) ∧
    (∀ e, h.getInternalStream i = Except.error e ↔
      (e = ErrorKind.IndexOutOfBounds ∧
        ¬(0 ≤ i ∧ i < (h.getNumInternalStreams : Int)))) := by
  simp only [raftHandle_impl.getNumInternalStreams]
  constructor
  · intro hin
    exact ⟨h.internalStreams.getD i.toNat 0,
      by rw [raftHandle_impl.getInternalStream, if_pos hin]⟩
  · intro e
    rw [raftHandle_impl.getInternalStream]
    by_cases hin : 0 ≤ i ∧ i < ((h.internalStreams.length : Nat) : Int)
    · rw [if_pos hin]
      constructor
      · intro hcon; cases hcon
      · intro hcon
        exact absurd hin hcon.2
    · rw [if_neg hin]
      constructor
      · intro hcon
        rw [Except.error.injEq] at hcon
        exact ⟨hcon.symm, hin⟩
      · intro hcon
        rw [hcon.1]

/-- C4: for every context constructed without a communicator injected,
commsInitialized() returns false (it is a total boolean probe) and
getCommunicator() fails with NotInitialized; for every context and every
communicator c, after setCommunicator(c) the probe returns true and
getCommunicator() returns the very instance c. -/
theorem C4_communicator_slot (env : Env) (n : Nat) (h : raftHandle_impl)
    (tr : List ApiCall) (hc : constructHandle env n = Except.ok (h, tr)) :
    h.commsInitialized = false ∧
    h.getCommunicator = Except.error ErrorKind.NotInitialized ∧
    ∀ (g : raftHandle_impl) (c : CommRef),
      (g.setCommunicator c).commsInitialized = true ∧
      (g.setCommunicator c).getCommunicator = Except.ok c := by
  obtain ⟨hb, -⟩ := constructHandle_ok env n h tr hc
  subst hb
  exact ⟨rfl, rfl, fun g c => ⟨rfl, rfl⟩⟩

/-- Witness for C4 at N = 0. -/
theorem C4_communicator_slot_witness :
    (buildHandle goodEnv 0).commsInitialized = false :=
  (C4_communicator_slot goodEnv 0 (buildHandle goodEnv 0)
    (buildTrace 0) rfl).1

/-- C5: for every context, including one constructed with no allocator
injected, getDeviceAllocator() and getHostAllocator() return a non-null
allocator after construction and after any sequence of the context's
operations: construction installs a valid default in both slots. -/
theorem C5_allocators_never_null (env : Env) (n : Nat)
    (h : raftHandle_impl) (tr : List ApiCall)
    (hc : constructHandle env n = Except.ok (h, tr)) (ops : List Op) :
    ((h.applyOps ops).getDeviceAllocator).isSome = true ∧
    ((h.applyOps ops).getHostAllocator).isSome = true := by
  obtain ⟨hb, -⟩ := constructHandle_ok env n h tr hc
  subst hb
  exact applyOps_alloc ops (buildHandle env n) rfl rfl

/-- Witness for C5 at N = 1 with a one-operation session. -/
theorem C5_allocators_never_null_witness :
    (((buildHandle goodEnv 1).applyOps [Op.setStream 3]).getDeviceAllocator).isSome = true :=
  (C5_allocators_never_null goodEnv 1 (buildHandle goodEnv 1)
    (buildTrace 1) rfl [Op.setStream 3]).1

/-- C6: construction is atomic — a context is returned exactly when every
construction step (device binding, stream creation, library-handle
creation) succeeds, each failing step aborts construction with its own
ConstructionError and no context value is ever produced alongside an
error; and the fallible per-call accessors (getInternalStream,
getCommunicator) leave the context state, and so every other accessor's
result, unchanged. -/
theorem C6_construction_atomic (env : Env) (n : Nat) :
    ((∃ h tr, constructHandle env n = Except.ok (h, tr)) ↔
      (env.deviceOk = true ∧ env.streamOk = true ∧ env.handleOk = true)) ∧
    (env.deviceOk = false →
      constructHandle env n = Except.error ConstructionError.DeviceError) ∧
    (env.deviceOk = true → env.streamOk = false →
      constructHandle env n = Except.error ConstructionError.StreamCreationFailure) ∧
    (env.deviceOk = true → env.streamOk = true → env.handleOk = false →
      constructHandle env n = Except.error ConstructionError.HandleCreationFailure) ∧
    (∀ (g : raftHandle_impl) (i : Int),
      (g.observeInternalStream i).2 = g ∧ g.observeCommunicator.2 = g) := by
  refine ⟨?_, ?_, ?_, ?_, fun g i => ⟨rfl, rfl⟩⟩
  · cases hd : env.deviceOk <;> cases hs : env.streamOk <;>
      cases hh : env.handleOk <;> simp [constructHandle, hd, hs, hh]
  · intro h1; simp [constructHandle, h1]
  · intro h1 h2; simp [constructHandle, h1, h2]
  · intro h1 h2 h3; simp [constructHandle, h1, h2, h3]

/-- C7: for every context and stream s, after setStream(s) getStream()
returns s, and the auxiliary stream pool is not recreated — the pool size
and the identity behind every getInternalStream(i) are exactly what they
were before the call. -/
theorem C7_setStream_frame (h : raftHandle_impl) (s : CudaStream) :
    (h.setStream s).getStream = s ∧
    (h.setStream s).getNumInternalStreams = h.getNumInternalStreams ∧
    (h.setStream s).getInternalStreams = h.getInternalStreams ∧
    ∀ i : Int, (h.setStream s).getInternalStream i = h.getInternalStream i :=
  ⟨rfl, rfl, rfl, fun i => rfl⟩

/-- C8: for every context and every allocator a, after
setDeviceAllocator(a) (respectively setHostAllocator(a)) the matching
getter returns the identical injected instance a, and the set call's
whole effect is replacing the held reference in its own slot: the
resulting state differs from the old one in that slot alone. -/
theorem C8_allocator_get_set (h : raftHandle_impl) (a b : AllocatorRef) :
    (h.setDeviceAllocator a).getDeviceAllocator = some a ∧
    (h.setHostAllocator b).getHostAllocator = some b ∧
    h.setDeviceAllocator a = { h with _deviceAllocator := some a } ∧
    h.setHostAllocator b = { h with _hostAllocator := some b } :=
  ⟨rfl, rfl, rfl, rfl⟩

/-- C9: for every constructed context, getDevice() returns the device
ordinal bound at construction and getDeviceProperties() the snapshot
cached then, the construction trace queries the device properties exactly
once, and no sequence of the context's operations changes what either
accessor returns. -/
theorem C9_device_and_props_frozen (env : Env) (n : Nat)
    (h : raftHandle_impl) (tr : List ApiCall)
    (hc : constructHandle env n = Except.ok (h, tr)) :
    h.getDevice = env.device ∧
    h.getDeviceProperties = env.props ∧
    tr.count ApiCall.queryProps = 1 ∧
    ∀ ops : List Op,
      (h.applyOps ops).getDevice = h.getDevice ∧
      (h.applyOps ops).getDeviceProperties = h.getDeviceProperties := by
  obtain ⟨hb, ht⟩ := constructHandle_ok env n h tr hc
  subst hb; subst ht
  refine ⟨rfl, rfl, ?_,
    fun ops => ⟨(applyOps_fixed ops _).1, (applyOps_fixed ops _).2.1⟩⟩
  simp [buildTrace, List.count_cons, List.count_append, List.count_replicate]

/-- Witness for C9 at N = 3. -/
theorem C9_device_and_props_frozen_witness :
    (buildHandle goodEnv 3).getDevice = 0 :=
  (C9_device_and_props_frozen goodEnv 3 (buildHandle goodEnv 3)
    (buildTrace 3) rfl).1

/-- C10: for every constructed context, getRaftHandle() is idempotent —
it returns the identity of the one backing raft::handle_t object
allocated at construction, and no sequence of the context's operations
changes which object it returns. -/
theorem C10_getRaftHandle_stable (env : Env) (n : Nat)
    (h : raftHandle_impl) (tr : List ApiCall)
    (hc : constructHandle env n = Except.ok (h, tr)) :
    h.getRaftHandle = env.raftObj ∧
    ∀ ops : List Op, (h.applyOps ops).getRaftHandle = h.getRaftHandle := by
  obtain ⟨hb, -⟩ := constructHandle_ok env n h tr hc
  subst hb
  exact ⟨rfl, fun ops => (applyOps_fixed ops _).2.2.1⟩

/-- Witness for C10 at N = 5. -/
theorem C10_getRaftHandle_stable_witness :
    (buildHandle goodEnv 5).getRaftHandle = 42 :=
  (C10_getRaftHandle_stable goodEnv 5 (buildHandle goodEnv 5)
    (buildTrace 5) rfl).1

end ML
